import Mathlib

/-!
Verification of the `flame` image-transform pipeline and model-assembly code.

The development shallowly embeds the repository's transform pipeline
(`flame/transforms/transforms.{hpp,cpp}`), the ResNet-V2 layer assembly
(`flame/models/resnet_v2.hpp`), the SLS block (`flame/models/sls_block.cpp`)
and the weight loader (`flame/util/load.hpp`).

Machine integers (`int`, `int64_t`) are modelled as `Int`; pixel values are
modelled as exact rationals `ℚ` (the underlying libraries use fixed-width
integers and IEEE floats; no statement proved here depends on rounding of
float arithmetic, and where integer saturation arithmetic occurs it is
modelled explicitly).  Fallible operations (OpenCV functions that throw,
out-of-bounds vector accesses, assertions) are modelled with `Option` /
`Except`: the repository's transform entry points are `noexcept`, so a
library exception terminates the process and no value is produced.
-/

namespace Flame

/-! ## OpenCV depth constants (`opencv2/core/hal/interface.h`) -/

def CV_8U  : Int := 0
def CV_8S  : Int := 1
def CV_16U : Int := 2
def CV_16S : Int := 3
def CV_32S : Int := 4
def CV_32F : Int := 5
def CV_64F : Int := 6
def CV_16F : Int := 7

/-- Model of `cv::INTER_LINEAR`, the default interpolation flag used by `Resize`. -/
def INTER_LINEAR : Int := 1

/-! ## The image model (`cv::Mat`)

A `cv::Mat` as used by this repository: a raster with `rows × cols` pixels,
`channels` interleaved channels per pixel, and a per-channel element depth
(one of the `CV_*` constants above).  Pixel storage is modelled as a total
function; indices outside the raster carry junk values that no theorem
depends on. -/

structure Mat where
  rows : Int
  cols : Int
  channels : Int
  depth : Int
  data : Int → Int → Int → ℚ

/-- Model of `cv::Mat::type()`: the depth combined with the channel count,
`CV_MAKETYPE(depth, cn) = depth + ((cn - 1) << 3)`.  This is the value the
`switch` in `ToTensor::create` inspects. -/
def cvMatType (img : Mat) : Int := img.depth + 8 * (img.channels - 1)

/-- Model of `cv::Rect` with `int` fields. -/
structure Rect where
  x : Int
  y : Int
  width : Int
  height : Int

/-- Model of `cv::Scalar`: four double components (used for per-channel mean/stddev). -/
structure Scalar where
  v0 : ℚ
  v1 : ℚ
  v2 : ℚ
  v3 : ℚ

def Scalar.get (s : Scalar) (c : Int) : ℚ :=
  if c = 0 then s.v0 else if c = 1 then s.v1 else if c = 2 then s.v2 else s.v3

/-! ## Models of the OpenCV primitives the transforms call -/

/-- Model of `cv::Mat::operator()(cv::Rect)` (and `.clone()` of the result): extracts
the sub-raster selected by `r`.  OpenCV's ROI constructor checks
`0 ≤ r.x`, `0 ≤ r.width`, `r.x + r.width ≤ cols` (and likewise for rows)
and throws otherwise; a failed check yields `none` here.  `clone()` copies
the pixel buffer, which does not change any pixel value, so the cloning and
non-cloning variants coincide in this model. -/
def submat (img : Mat) (r : Rect) : Option Mat :=
  if 0 ≤ r.x ∧ 0 ≤ r.y ∧ 0 ≤ r.width ∧ 0 ≤ r.height ∧
     r.x + r.width ≤ img.cols ∧ r.y + r.height ≤ img.rows then
    some { rows := r.height, cols := r.width, channels := img.channels,
           depth := img.depth,
           data := fun i j c => img.data (i + r.y) (j + r.x) c }
  else none

/-- Model of `cv::resize(img, dst, cv::Size(w, h), 0, 0, interp)`: the destination
raster has `w` columns and `h` rows and the same channel count and depth as
the source.  OpenCV asserts that the source is non-empty and the requested
size is positive, and throws otherwise (`none` here).  The interpolated
pixel values are produced inside the library; the repository never depends
on them, and they are modelled as coordinate-scaled samples of the source. -/
def cvResize (img : Mat) (w h interp : Int) : Option Mat :=
  if img.rows ≤ 0 ∨ img.cols ≤ 0 ∨ w ≤ 0 ∨ h ≤ 0 then none
  else
    some { rows := h, cols := w, channels := img.channels, depth := img.depth,
           data := fun i j c =>
             img.data (Int.tdiv (i * img.rows) h) (Int.tdiv (j * img.cols) w) c }

/-- Model of `cv::cvtColor(· , · , cv::COLOR_BGR2RGB)`: swaps channels 0 and 2,
keeping the rest.  The conversion requires a 3- or 4-channel source and
throws otherwise (`none` here). -/
def cvtColorBGR2RGB (img : Mat) : Option Mat :=
  if img.channels = 3 ∨ img.channels = 4 then
    some { img with data := fun i j c =>
             img.data i j (if c = 0 then 2 else if c = 2 then 0 else c) }
  else none

/-- Clamp an integer into `[lo, hi]`. -/
def clampZ (v lo hi : Int) : Int := max lo (min hi v)

/-- OpenCV's `saturate_cast` applied to `alpha * v` for a destination depth:
integral depths round to the nearest integer and clamp into the depth's
range; floating depths keep the value (modelled exactly in `ℚ`; `cvRound`
breaks ties to even, a case no statement here exercises). -/
def satCastQ (depth : Int) (v : ℚ) : ℚ :=
  if depth = CV_8U then (clampZ (round v) 0 255 : Int)
  else if depth = CV_8S then (clampZ (round v) (-128) 127 : Int)
  else if depth = CV_16U then (clampZ (round v) 0 65535 : Int)
  else if depth = CV_16S then (clampZ (round v) (-32768) 32767 : Int)
  else if depth = CV_32S then (clampZ (round v) (-2147483648) 2147483647 : Int)
  else v

/-- Model of `cv::Mat::convertTo(dst, type, alpha)`: element type becomes `type` and
every element is `saturate_cast<type>(alpha * v)`. -/
def cvConvertTo (img : Mat) (ty : Int) (alpha : ℚ) : Mat :=
  { img with depth := ty, data := fun i j c => satCastQ ty (alpha * img.data i j c) }

/-! ## The tensor model (`torch::Tensor`) -/

/-- A rank-3 `torch::Tensor` as produced by `ToTensor::create`.  `data` is
indexed along the three dimensions in order. -/
structure Tensor where
  dims : List Int
  data : Int → Int → Int → ℚ

/-- Model of `torch::Tensor()`: the default (empty, undefined) tensor returned by the
base-class `Transform::create`. -/
def Tensor.empty : Tensor := { dims := [], data := fun _ _ _ => 0 }

/-- Model of `torch::from_blob(img.data, {img.rows, img.cols, img.channels},
torch::kFloat32)`: wraps the raw pixel buffer, reinterpreting it as 32-bit
floats.  When the buffer's element type is 32-bit float the wrapped values
are exactly the pixel values laid out row-major (row, column, channel).
For any other element depth the byte reinterpretation does not reproduce
the pixel values (and for sub-4-byte depths reads past the buffer), so no
meaningful tensor is produced: modelled as `none`. -/
def from_blob_f32 (img : Mat) : Option Tensor :=
  if img.depth = CV_32F then
    some { dims := [img.rows, img.cols, img.channels],
           data := fun i j c => img.data i j c }
  else none

/-- Model of `t.permute({2, 0, 1})`: dimension `k` of the result is dimension
`(2, 0, 1)[k]` of `t`, and `result[a][b][c] = t[b][c][a]`. -/
def Tensor.permute201 (t : Tensor) : Tensor :=
  { dims := [t.dims.getD 2 0, t.dims.getD 0 0, t.dims.getD 1 0],
    data := fun a b c => t.data b c a }

/-! ## `torch::ScalarType` (`c10::ScalarType`) -/

/-- The scalar types distinguished by `get_conversion_props`; every other
member of `c10::ScalarType` falls into the `switch`'s `default` arm and is
represented by `otherScalar`. -/
inductive ScalarType
  | kUInt8 | kInt8 | kInt16 | kInt32 | kInt64
  | kFloat16 | kFloat32 | kFloat64
  | otherScalar
deriving DecidableEq

/-! ## The transform implementations (`transforms.cpp`) -/

/-- Model of `get_conversion_props` (transforms.cpp:49-68): given the image and the
requested component type, produce the destination OpenCV depth and the
`alpha` scale factor for `convertTo`.  The out-parameters start as
`(img.depth(), 1.0)` and are only overwritten by the matching `switch`
cases; `alpha` becomes `1/255` exactly for the floating-point targets.
`kInt32` and `kInt64` both map to `CV_32S`; the `default` arm leaves both
out-parameters untouched. -/
def get_conversion_props (img : Mat) (comp : ScalarType) : Int × ℚ :=
  match comp with
  | .kUInt8 => (CV_8U, 1)
  | .kInt8 => (CV_8S, 1)
  | .kInt16 => (CV_16S, 1)
  | .kInt32 => (CV_32S, 1)
  | .kInt64 => (CV_32S, 1)
  | .kFloat16 => (CV_16F, 1 / 255)
  | .kFloat32 => (CV_32F, 1 / 255)
  | .kFloat64 => (CV_64F, 1 / 255)
  | .otherScalar => (img.depth, 1)

/-- Model of `ConvertImageDType::transform` (transforms.cpp:70-95): if the computed
destination depth equals the image's current depth the image is returned
unchanged (no conversion, no scaling, no channel swap); otherwise the image
is converted with `convertTo` and its channels swapped BGR→RGB with
`cvtColor`.  The copying and the in-place overloads run the same
computation, so both are this function. -/
def ConvertImageDType.transform (comp : ScalarType) (img : Mat) : Option Mat :=
  let p := get_conversion_props img comp
  if p.1 = img.depth then some img
  else cvtColorBGR2RGB (cvConvertTo img p.1 p.2)

/-- Model of `Normalize::transform` (transforms.cpp:99-106): `(img - mean) / stddev`
with the `cv::Scalar` operands broadcast per channel.  (The two overloads
compute the same values.) -/
def Normalize.transform (mean stddev : Scalar) (img : Mat) : Mat :=
  { img with data := fun i j c => (img.data i j c - mean.get c) / stddev.get c }

/-- Model of `ToTensor::create` (transforms.cpp:110-123): switches on `img.type()`
(the depth *and* channel-count code, see `cvMatType`) and applies
`ConvertImageDType(torch::kFloat32)` in place when the code equals one of
the five listed single-channel integral constants; then wraps the buffer
with `torch::from_blob(..., {rows, cols, channels}, torch::kFloat32)` and
permutes the dimensions by `(2, 0, 1)`. -/
def ToTensor.create (img : Mat) : Option Tensor :=
  let t := cvMatType img
  let step1 : Option Mat :=
    if t = CV_8U ∨ t = CV_8S ∨ t = CV_16U ∨ t = CV_16S ∨ t = CV_32S then
      ConvertImageDType.transform ScalarType.kFloat32 img
    else some img
  step1.bind fun im => (from_blob_f32 im).map Tensor.permute201

/-- Model of `get_roi` (transforms.cpp:34-38): the centered rectangle of size
`w × h`, with offsets computed by C++ `int` division (truncation toward
zero, `Int.tdiv`). -/
def get_roi (img : Mat) (w h : Int) : Rect :=
  { x := Int.tdiv (img.cols - w) 2, y := Int.tdiv (img.rows - h) 2,
    width := w, height := h }

/-- Model of `CenterCrop::transform` (transforms.cpp:39-45): extract the centered
ROI.  The copying overload clones the sub-raster and the in-place overload
rebinds the header; both yield the same pixel values, so both overloads are
this function. -/
def CenterCrop.transform (w h : Int) (img : Mat) : Option Mat :=
  submat img (get_roi img w h)

/-- Model of `Resize::transform` (transforms.cpp:22-30): resize to
`cv::Size(width_, height_)` with the stored interpolation flag.  The
copying overload's freshly constructed `result` is fully overwritten by
`cv::resize`, so both overloads are this function. -/
def Resize.transform (w h interp : Int) (img : Mat) : Option Mat :=
  cvResize img w h interp

/-! ## The transform descriptors and the `Transformer` chain

The repository stores `std::shared_ptr<Transform>` values and dispatches
virtually; the dynamic type of each stage is one of the five concrete
transforms, embedded as an inductive.  `Resize(w, interp)` (the
single-size constructor) stores `width_ = height_ = w`; likewise
`CenterCrop(w)`. -/

inductive Transform
  | resize (width height interpolation : Int)
  | centerCrop (width height : Int)
  | convertImageDType (comp : ScalarType)
  | normalize (mean stddev : Scalar)
  | toTensor

/-- The `dynamic_cast<ToTensor*>` test used by `Transformer::make_tensor`:
succeeds exactly on a `ToTensor` stage. -/
def Transform.isToTensor : Transform → Bool
  | .toTensor => true
  | _ => false

/-- Virtual dispatch of `Transform::transform(const cv::Mat&) -> cv::Mat`
(the copying variant).  `ToTensor` overrides neither `transform` overload,
so the base-class default — return the image unchanged — applies to it. -/
def Transform.transform : Transform → Mat → Option Mat
  | .resize w h interp, img => Resize.transform w h interp img
  | .centerCrop w h, img => CenterCrop.transform w h img
  | .convertImageDType comp, img => ConvertImageDType.transform comp img
  | .normalize m s, img => some (Normalize.transform m s img)
  | .toTensor, img => some img

/-- Virtual dispatch of `Transform::transform(cv::Mat&) -> void` (the
in-place variant).  Every concrete override produces the same image value
as the copying variant (cloning only affects buffer ownership), and the
base-class default for `ToTensor` assigns `transform(img)` to `img`, i.e.
leaves it unchanged. -/
def Transform.transformInPlace : Transform → Mat → Option Mat
  | .resize w h interp, img => Resize.transform w h interp img
  | .centerCrop w h, img => CenterCrop.transform w h img
  | .convertImageDType comp, img => ConvertImageDType.transform comp img
  | .normalize m s, img => some (Normalize.transform m s img)
  | .toTensor, img => some img

/-- Virtual dispatch of `Transform::create`: only `ToTensor` overrides it;
the base-class default returns a default-constructed `torch::Tensor()`. -/
def Transform.create : Transform → Mat → Option Tensor
  | .toTensor, img => ToTensor.create img
  | _, _ => some Tensor.empty

/-- Model of `Transformer::make_image` (transforms.cpp:127-134): apply the first
transform's copying variant, then every later transform's in-place variant.
`transforms_.front()` on an empty chain is out of bounds (undefined
behaviour), modelled as `none`. -/
def make_image (ts : List Transform) (img : Mat) : Option Mat :=
  match ts with
  | [] => none
  | t0 :: rest =>
    (t0.transform img).bind fun im0 =>
      rest.foldl (fun s t => s.bind t.transformInPlace) (some im0)

/-- Model of `Transformer::update_image` (transforms.cpp:136-140): apply every
transform's in-place variant to the caller's image.  An empty chain
performs no iteration and leaves the image unchanged. -/
def update_image (ts : List Transform) (img : Mat) : Option Mat :=
  ts.foldl (fun s t => s.bind t.transformInPlace) (some img)

/-- The sweep loop of `Transformer::make_tensor` (transforms.cpp:151-158):
walk the remaining transforms; a stage that dynamic-casts to `ToTensor` is
stored in `tensor_transform` (overwriting any earlier hit) and skipped;
any other stage is applied in place. -/
def sweepLoop : List Transform → Option Transform → Mat →
    Option (Option Transform × Mat)
  | [], acc, im => some (acc, im)
  | t :: ts, acc, im =>
    if t.isToTensor then sweepLoop ts (some t) im
    else (t.transformInPlace im).bind fun im2 => sweepLoop ts acc im2

/-- Model of `Transformer::make_tensor` (transforms.cpp:142-161): if the front stage
is a `ToTensor` it is applied directly to a copy of the input; otherwise
the first transform produces a working image, the remaining transforms are
swept by `sweepLoop`, and the remembered tensor transform (or a
default-constructed `ToTensor()` when none was found) materializes the
final image.  `transforms_.front()` on an empty chain is out of bounds,
modelled as `none`. -/
def make_tensor (ts : List Transform) (img : Mat) : Option Tensor :=
  match ts with
  | [] => none
  | t0 :: rest =>
    if t0.isToTensor then t0.create img
    else
      (t0.transform img).bind fun im0 =>
        (sweepLoop rest none im0).bind fun s =>
          match s.1 with
          | some t => t.create s.2
          | none => Transform.toTensor.create s.2

/-- The behaviour §4.1 of the specification ascribes to the tensor sweep,
stated in the specification's own terms: apply the first transform, then
apply each remaining non-tensor-producing transform in place (tensor
stages are not applied during the sweep), and materialize the final image
state exactly once with `ToTensor`. -/
def sweepSkipTensor : List Transform → Mat → Option Mat
  | [], im => some im
  | t :: ts, im =>
    if t.isToTensor then sweepSkipTensor ts im
    else (t.transformInPlace im).bind (sweepSkipTensor ts)

/-- The specification's description of `make_tensor` on a chain whose first
stage is not tensor-producing (see `sweepSkipTensor`). -/
def make_tensor_spec (t0 : Transform) (rest : List Transform) (img : Mat) :
    Option Tensor :=
  (t0.transform img).bind fun im0 =>
    (sweepSkipTensor rest im0).bind ToTensor.create

/-! ## ResNet-V2 layer assembly (`flame/models/resnet_v2.hpp`) -/

/-- The constructor arguments of one `Block` pushed into a layer by
`ResnetV2Impl::make_layer`: the running input-channel count, the layer's
output channels, the convolution stride, and whether a downsampling
shortcut was attached. -/
structure BlockSpec where
  inChannels : Int
  planes : Int
  stride : Int
  hasDownsample : Bool
deriving DecidableEq

/-- Model of `ResnetV2Impl::make_layer` (resnet_v2.hpp:157-174): push one block with
the running `_in_channels`, the given stride, and a downsample layer when
the stride is not 1 or the channel count changes; update `_in_channels` to
`out_channels * Block::expansion`; then push `blocks - 1` further blocks
with default stride 1 and no downsample.  (The source loop `for (i = 1;
i != blocks; ++i)` performs `blocks - 1` iterations for `blocks ≥ 1`, the
only counts the repository uses.)  Returns the layer's block list and the
updated `_in_channels`. -/
def rv2_make_layer (expansion inCh outCh blocks stride : Int) :
    List BlockSpec × Int :=
  let outPlanes := outCh * expansion
  let hasDs : Bool := stride != 1 || inCh != outPlanes
  let first : BlockSpec := ⟨inCh, outCh, stride, hasDs⟩
  let rest : List BlockSpec :=
    List.replicate (blocks - 1).toNat ⟨outPlanes, outCh, 1, false⟩
  (first :: rest, outPlanes)

/-- The four block layers built by the `ResnetV2Impl` constructor
(resnet_v2.hpp:61-83).  `_in_channels` starts at `first_conv_outputs = 64`;
layers 1-3 are built with `stride_2 = 2` and layer 4 with the default
stride 1.  The source passes `layer_sizes[0]` as the block count to ALL
FOUR `make_layer` calls (lines 67-70), which this embedding reproduces
verbatim; `ls` carries the four entries of the `LayerSizes` array. -/
def resnetV2_blocks (expansion : Int) (ls : Int × Int × Int × Int) :
    List BlockSpec × List BlockSpec × List BlockSpec × List BlockSpec :=
  let s0 : Int := 64
  let r1 := rv2_make_layer expansion s0 64 ls.1 2
  let r2 := rv2_make_layer expansion r1.2 128 ls.1 2
  let r3 := rv2_make_layer expansion r2.2 256 ls.1 2
  let r4 := rv2_make_layer expansion r3.2 512 ls.1 1
  (r1.1, r2.1, r3.1, r4.1)

/-! ## SLS block (`flame/models/sls_block.cpp`) -/

/-- Symbolic tensors: the SLS block's `forward` only composes library
operations (layer application and `torch::cat`), represented as syntax. -/
inductive TExpr
  | input (n : Nat)
  | layer (name : String) (t : TExpr)
  | cat (ts : List TExpr)

/-- The state of an `SlsBlockImpl` that `forward` consults: whether the
block is the first block of the chain. -/
structure SlsBlockM where
  isFirst : Bool

/-- Model of `SlsBlockImpl::forward` (sls_block.cpp:43-57).  The guard
`is_first_ && x.size() != 1 || !is_first_ && x.size() != 2` (with C++
precedence `(a && b) || (c && d)`) triggers the process-terminating
`assert`.  Otherwise `x[0]` feeds the convolution chain and the block
returns `{out, out}` when first, and `{conv6(cat(d1,d2,d3,x[1])), x[1]}`
otherwise.  (The `x[0]` / `x[1]` accesses cannot be out of bounds once the
guard has passed; the unreachable arms are marked distinctly.) -/
def slsForward (b : SlsBlockM) (x : List TExpr) :
    Except String (List TExpr) :=
  if (b.isFirst && x.length != 1) || (!b.isFirst && x.length != 2) then
    .error "Invalid tensor input size!"
  else
    match x with
    | [] => .error "unreachable: x[0] out of bounds"
    | x0 :: rest =>
      let d1 := TExpr.layer "conv1" x0
      let d2 := TExpr.layer "conv3" (TExpr.layer "conv2" d1)
      let d3 := TExpr.layer "conv5" (TExpr.layer "conv4" d2)
      if b.isFirst then
        let out := TExpr.layer "conv6" (TExpr.cat [d1, d2, d3])
        .ok [out, out]
      else
        match rest with
        | [] => .error "unreachable: x[1] out of bounds"
        | x1 :: _ => .ok [TExpr.layer "conv6" (TExpr.cat [d1, d2, d3, x1]), x1]

/-- Whether a `forward` outcome is the size-mismatch assertion failure. -/
def isSizeAssert : Except String (List TExpr) → Bool
  | .error e => e == "Invalid tensor input size!"
  | .ok _ => false

/-! ## Pretrained-weight loading (`flame/util/load.hpp`) -/

/-- Model of `std::filesystem::path(root).append(name)`: when `name` is relative,
a preferred separator is inserted unless `root` is empty or already ends
with one; an absolute `name` replaces the path. -/
def path_append (root name : String) : String :=
  if (name.data.head? == some '/') then name
  else if root = "" ∨ (root.data.getLast? == some '/') then root ++ name
  else root ++ "/" ++ name

/-- Model of `load_pretrained` (load.hpp:31-39).  `env` is the value of the
`FLAME_MODEL_PATH` environment variable (`none` when unset).  When the
variable is absent the function hits `assert(false && "Model path not
loaded: Set $FLAME_MODEL_PATH!")` and never reaches `torch::load`;
otherwise `torch::load(model, model_path)` is invoked, and the `.ok`
result carries the archive path handed to it. -/
def load_pretrained (env : Option String) (archive_name : String) :
    Except String String :=
  match env with
  | none => .error "Model path not loaded: Set $FLAME_MODEL_PATH!"
  | some root => .ok (path_append root archive_name)

/-! ## Concrete images and chains used by witnesses and counterexamples -/

/-- A 4×4 three-channel 8-bit image with distinguishable pixel values. -/
def img4x4 : Mat :=
  { rows := 4, cols := 4, channels := 3, depth := CV_8U,
    data := fun i j c => 100 * i + 10 * j + c }

/-- A 5-row, 3-column three-channel 32-bit-float image. -/
def imgF32 : Mat :=
  { rows := 5, cols := 3, channels := 3, depth := CV_32F,
    data := fun i j c => (i + j + c) / 7 }

/-- A 1×1 three-channel 8-bit unsigned image (a single BGR pixel):
`img.type()` is `CV_8UC3 = 16`. -/
def imgU8C3 : Mat :=
  { rows := 1, cols := 1, channels := 3, depth := CV_8U,
    data := fun _ _ c => if c = 0 then 255 else if c = 1 then 128 else 0 }

/-- A 1×1 three-channel 64-bit-float image. -/
def imgF64 : Mat :=
  { rows := 1, cols := 1, channels := 3, depth := CV_64F,
    data := fun _ _ _ => 1 }

/-- The image produced by converting `imgU8C3` to 32-bit float (first
application of `ConvertImageDType(kFloat32)`), used by the idempotence
witness. -/
def imgU8C3_f32 : Mat :=
  (ConvertImageDType.transform ScalarType.kFloat32 imgU8C3).getD imgU8C3

/-- Tail of the transform chain used by the deferred-materialization
witness: two tensor-producing stages and an interleaved crop. -/
def c1_chain_tail : List Transform :=
  [Transform.toTensor, Transform.centerCrop 2 2, Transform.toTensor]

/-- A 0×0 (empty) raster: `cv::Mat()` is empty with no rows or columns. -/
def imgEmpty : Mat :=
  { rows := 0, cols := 0, channels := 3, depth := CV_8U, data := fun _ _ _ => 0 }

/-! ## Theorems -/

/-- A transform that passes the `dynamic_cast<ToTensor*>` test is the
`ToTensor` stage. -/
theorem Transform.isToTensor_true {t : Transform} (h : t.isToTensor = true) :
    t = .toTensor := by
  cases t <;> simp_all [Transform.isToTensor]

/-- C10: On an empty transform chain, `make_image` and `make_tensor` access
`transforms_.front()` out of bounds (undefined, `none`), while
`update_image` iterates zero times and leaves the caller's image
unchanged. -/
theorem transformer_empty_chain (img : Mat) :
    make_image [] img = none ∧ make_tensor [] img = none ∧
    update_image [] img = some img :=
  ⟨rfl, rfl, rfl⟩

/-- C2: evaluating the embedded `ResnetV2Impl` constructor at the layer
sizes `{3, 4, 6, 3}` (the configuration `resnet_v2_50` passes).  Because
the constructor hands `layer_sizes[0]` to all four `make_layer` calls,
every layer is built with 3 blocks; layers 2 and 3 do not receive their
configured 4 and 6 blocks. -/
theorem resnetV2_layer_sizes_bug :
    ((resnetV2_blocks 1 (3, 4, 6, 3)).1).length = 3 ∧
    ((resnetV2_blocks 1 (3, 4, 6, 3)).2.1).length = 3 ∧
    ((resnetV2_blocks 1 (3, 4, 6, 3)).2.2.1).length = 3 ∧
    ((resnetV2_blocks 1 (3, 4, 6, 3)).2.2.2).length = 3 ∧
    ((resnetV2_blocks 1 (3, 4, 6, 3)).2.1).length ≠ 4 ∧
    ((resnetV2_blocks 1 (3, 4, 6, 3)).2.2.1).length ≠ 6 := by
  decide

/-- C5: evaluating `ToTensor::create` at a 1×1 three-channel 8-bit unsigned
image.  `img.type()` is `CV_8UC3 = 16`, which matches none of the
single-channel constants in the `switch`, so no float conversion, no
`1/255` scaling and no BGR→RGB swap is performed; the raw 8-bit buffer is
then handed to `torch::from_blob(..., torch::kFloat32)`, which
reinterprets it instead of converting it, so no tensor holding the claimed
values is produced (modelled as `none`). -/
theorem toTensor_uint8_type_switch :
    cvMatType imgU8C3 = 16 ∧ ToTensor.create imgU8C3 = none := by
  constructor
  · decide
  · rfl

/-- C6 counterexample: a 1×1 three-channel 64-bit-float image has a
floating-point storage type, yet `ToTensor::create` wraps its buffer with
`torch::from_blob(..., torch::kFloat32)`, reinterpreting the 8-byte
elements as 4-byte floats; the resulting tensor does not carry the input
pixel values (modelled as no meaningful tensor at all), refuting the claim
for this image. -/
theorem toTensor_float64_not_wrapped :
    ¬ ∃ t, ToTensor.create imgF64 = some t := by
  intro ht
  obtain ⟨t, ht⟩ := ht
  have hnone : ToTensor.create imgF64 = none := rfl
  rw [hnone] at ht
  exact Option.noConfusion ht

/-- C9: `load_pretrained` fails with the assertion (and never reaches
`torch::load`) exactly when `FLAME_MODEL_PATH` is unset; when the variable
is set, the archive is loaded from the path obtained by appending the
archive name to the variable's value. -/
theorem load_pretrained_env (env : Option String) (a : String) :
    (load_pretrained env a =
        .error "Model path not loaded: Set $FLAME_MODEL_PATH!" ↔ env = none) ∧
    (∀ root, env = some root → load_pretrained env a = .ok (path_append root a)) := by
  cases env <;> simp [load_pretrained]

/-- Witness for C9 at a concrete root directory and archive name. -/
theorem load_pretrained_env_witness :
    load_pretrained (some "/models") "resnet_18_pretrained.pt" =
      .ok (path_append "/models" "resnet_18_pretrained.pt") ∧
    path_append "/models" "resnet_18_pretrained.pt" =
      "/models/resnet_18_pretrained.pt" :=
  ⟨(load_pretrained_env (some "/models") "resnet_18_pretrained.pt").2
      "/models" rfl,
   by decide⟩

/-- C8: `SlsBlockImpl::forward` hits the process-terminating assertion
exactly when the tensor count is wrong for the block's position: a first
block with `x.size() != 1`, or a non-first block with `x.size() != 2`;
every other input proceeds past the guard. -/
theorem sls_forward_assert_iff (b : SlsBlockM) (x : List TExpr) :
    isSizeAssert (slsForward b x) = true ↔
      ((b.isFirst = true ∧ x.length ≠ 1) ∨
       (b.isFirst = false ∧ x.length ≠ 2)) := by
  obtain ⟨f⟩ := b
  cases f <;> rcases x with _ | ⟨x0, _ | ⟨x1, t⟩⟩ <;>
    simp [slsForward, isSizeAssert] <;>
    cases t <;> simp [slsForward, isSizeAssert]

/-- C4: a second application of `ConvertImageDType` with the same target
type is a no-op returning the image unchanged: after a successful first
application the image's depth already equals the conversion target, so the
early-return branch is taken. -/
theorem convertImageDType_idem (comp : ScalarType) (img img2 : Mat)
    (h : ConvertImageDType.transform comp img = some img2) :
    ConvertImageDType.transform comp img2 = some img2 := by
  unfold ConvertImageDType.transform at h ⊢
  by_cases h0 : (get_conversion_props img comp).1 = img.depth
  · rw [if_pos h0] at h
    obtain rfl : img = img2 := Option.some.inj h
    rw [if_pos h0]
  · rw [if_neg h0] at h
    have hdep : img2.depth = (get_conversion_props img comp).1 := by
      unfold cvtColorBGR2RGB at h
      split at h
      · cases h; rfl
      · cases h
    have hp2 : (get_conversion_props img2 comp).1 = img2.depth := by
      cases comp <;>
        simp_all [get_conversion_props]
    rw [if_pos hp2]

/-- Witness for C4: converting a 1×1 8-bit BGR image to 32-bit float once
and then applying the same conversion again returns the intermediate image
unchanged. -/
theorem convertImageDType_idem_witness :
    ConvertImageDType.transform ScalarType.kFloat32 imgU8C3_f32 =
      some imgU8C3_f32 :=
  convertImageDType_idem ScalarType.kFloat32 imgU8C3 imgU8C3_f32 rfl

/-- C6 (amended to 32-bit-float storage): on an image whose storage type is
32-bit float, `ToTensor::create` performs no conversion, no rescale and no
channel swap — the `switch` misses every integral case — and returns the
`(rows, cols, channels)` buffer permuted by `(2, 0, 1)`: a tensor of shape
`(channels, rows, cols)` whose entry `(c, i, j)` is pixel `(i, j, c)` of
the input, unchanged. -/
theorem toTensor_float32_values_unchanged (img : Mat)
    (hd : img.depth = CV_32F) :
    ToTensor.create img =
      some { dims := [img.channels, img.rows, img.cols],
             data := fun c i j => img.data i j c } := by
  have hne : ¬(cvMatType img = CV_8U ∨ cvMatType img = CV_8S ∨
      cvMatType img = CV_16U ∨ cvMatType img = CV_16S ∨
      cvMatType img = CV_32S) := by
    simp only [cvMatType, hd, CV_8U, CV_8S, CV_16U, CV_16S, CV_32S, CV_32F]
    omega
  have h1 : ToTensor.create img = (from_blob_f32 img).map Tensor.permute201 := by
    simp only [ToTensor.create, hne, if_false]
    rfl
  rw [h1]
  simp only [from_blob_f32]
  rw [if_pos hd]
  rfl

/-- Witness for C6's amended statement at a concrete 5×3 float image. -/
theorem toTensor_float32_values_unchanged_witness :
    ToTensor.create imgF32 =
      some { dims := [imgF32.channels, imgF32.rows, imgF32.cols],
             data := fun c i j => imgF32.data i j c } :=
  toTensor_float32_values_unchanged imgF32 rfl

/-- C3: for target sizes within the source, both `CenterCrop::transform`
variants produce exactly a `w × h` image whose pixel `(i, j)` is source
pixel `(i + ⌊(H-h)/2⌋, j + ⌊(W-w)/2⌋)` (the C++ truncating division
coincides with the floor for these non-negative numerators); when the
target exceeds the source in either axis, the ROI check fails and the
operation produces nothing. -/
theorem centerCrop_spec (img : Mat) (w h : Int) (hw0 : 0 ≤ w) (hh0 : 0 ≤ h) :
    (w ≤ img.cols → h ≤ img.rows →
      ∃ out, CenterCrop.transform w h img = some out ∧
        out.cols = w ∧ out.rows = h ∧ out.channels = img.channels ∧
        out.data = fun i j c =>
          img.data (i + Int.fdiv (img.rows - h) 2)
                   (j + Int.fdiv (img.cols - w) 2) c) ∧
    ((img.cols < w ∨ img.rows < h) →
      CenterCrop.transform w h img = none) := by
  constructor
  · intro hwc hhr
    have hcw : 0 ≤ img.cols - w := by omega
    have hrh : 0 ≤ img.rows - h := by omega
    have h2 : (0 : Int) ≤ 2 := by omega
    have hx0 : 0 ≤ (img.cols - w).tdiv 2 := Int.tdiv_nonneg hcw h2
    have hy0 : 0 ≤ (img.rows - h).tdiv 2 := Int.tdiv_nonneg hrh h2
    have hxd : (img.cols - w).tdiv 2 ≤ img.cols - w := by
      rw [Int.tdiv_eq_ediv hcw h2]; exact Int.ediv_le_self 2 hcw
    have hyd : (img.rows - h).tdiv 2 ≤ img.rows - h := by
      rw [Int.tdiv_eq_ediv hrh h2]; exact Int.ediv_le_self 2 hrh
    have hfx : Int.fdiv (img.cols - w) 2 = (img.cols - w).tdiv 2 :=
      Int.fdiv_eq_tdiv hcw h2
    have hfy : Int.fdiv (img.rows - h) 2 = (img.rows - h).tdiv 2 :=
      Int.fdiv_eq_tdiv hrh h2
    have hc : 0 ≤ (get_roi img w h).x ∧ 0 ≤ (get_roi img w h).y ∧
        0 ≤ (get_roi img w h).width ∧ 0 ≤ (get_roi img w h).height ∧
        (get_roi img w h).x + (get_roi img w h).width ≤ img.cols ∧
        (get_roi img w h).y + (get_roi img w h).height ≤ img.rows := by
      refine ⟨hx0, hy0, hw0, hh0, ?_, ?_⟩ <;> simp only [get_roi] <;> linarith
    refine ⟨{ rows := h, cols := w, channels := img.channels, depth := img.depth,
              data := fun i j c =>
                img.data (i + (img.rows - h).tdiv 2)
                         (j + (img.cols - w).tdiv 2) c },
            ?_, rfl, rfl, rfl, ?_⟩
    · show submat img (get_roi img w h) = _
      unfold submat
      rw [if_pos hc]
      rfl
    · rw [hfx, hfy]
  · intro hbad
    have hc : ¬(0 ≤ (get_roi img w h).x ∧ 0 ≤ (get_roi img w h).y ∧
        0 ≤ (get_roi img w h).width ∧ 0 ≤ (get_roi img w h).height ∧
        (get_roi img w h).x + (get_roi img w h).width ≤ img.cols ∧
        (get_roi img w h).y + (get_roi img w h).height ≤ img.rows) := by
      intro hcond
      obtain ⟨h1, h2, -, -, h5, h6⟩ := hcond
      simp only [get_roi] at h1 h2 h5 h6
      rcases hbad with hb | hb <;> linarith
    show submat img (get_roi img w h) = none
    unfold submat
    rw [if_neg hc]

/-- Witness for C3 at a concrete 4×4 image and a 2×2 centered crop. -/
theorem centerCrop_spec_witness :
    (0 : Int) ≤ 2 ∧
    ∃ out, CenterCrop.transform 2 2 img4x4 = some out ∧
      out.cols = 2 ∧ out.rows = 2 ∧ out.channels = img4x4.channels ∧
      out.data = fun i j c =>
        img4x4.data (i + Int.fdiv (img4x4.rows - 2) 2)
                    (j + Int.fdiv (img4x4.cols - 2) 2) c :=
  ⟨by decide,
   (centerCrop_spec img4x4 2 2 (by decide) (by decide)).1 (by decide) (by decide)⟩

/-- C7: for every image with at least one row and one column (so that it
has an aspect ratio at all), the chain `[Resize(256), CenterCrop(224)]`
run through `Transformer::make_image` — first transform by copy, the rest
in place — produces exactly a 224×224 image. -/
theorem make_image_resize_crop (img : Mat) (hr : 1 ≤ img.rows)
    (hc : 1 ≤ img.cols) :
    ∃ out, make_image [Transform.resize 256 256 INTER_LINEAR,
        Transform.centerCrop 224 224] img = some out ∧
      out.cols = 224 ∧ out.rows = 224 := by
  have hcond : ¬(img.rows ≤ 0 ∨ img.cols ≤ 0 ∨ (256 : Int) ≤ 0 ∨
      (256 : Int) ≤ 0) := by omega
  have e1 : make_image [Transform.resize 256 256 INTER_LINEAR,
      Transform.centerCrop 224 224] img =
      CenterCrop.transform 224 224
        { rows := 256, cols := 256, channels := img.channels,
          depth := img.depth,
          data := fun i j c =>
            img.data ((i * img.rows).tdiv 256) ((j * img.cols).tdiv 256) c } := by
    simp only [make_image, Transform.transform, Resize.transform, cvResize,
      List.foldl, Transform.transformInPlace]
    rw [if_neg hcond]
    rfl
  rw [e1]
  unfold CenterCrop.transform submat
  rw [if_pos (by
    refine ⟨?_, ?_, ?_, ?_, ?_, ?_⟩
    · show (0 : Int) ≤ Int.tdiv (256 - 224) 2
      decide
    · show (0 : Int) ≤ Int.tdiv (256 - 224) 2
      decide
    · show (0 : Int) ≤ 224
      decide
    · show (0 : Int) ≤ 224
      decide
    · show Int.tdiv (256 - 224) 2 + 224 ≤ (256 : Int)
      decide
    · show Int.tdiv (256 - 224) 2 + 224 ≤ (256 : Int)
      decide)]
  exact ⟨_, rfl, rfl, rfl⟩

/-- Witness for C7 at a concrete 4×4 image. -/
theorem make_image_resize_crop_witness :
    ∃ out, make_image [Transform.resize 256 256 INTER_LINEAR,
        Transform.centerCrop 224 224] img4x4 = some out ∧
      out.cols = 224 ∧ out.rows = 224 :=
  make_image_resize_crop img4x4 (by decide) (by decide)

/-- The sweep of `make_tensor`, finished by the remembered (or default)
tensor transform, computes the same thing as the specification's sweep
that skips tensor stages and materializes once at the end — for any
accumulator that holds either nothing or a `ToTensor` stage (the only
values the loop ever stores). -/
theorem sweepLoop_create_eq (rest : List Transform) :
    ∀ (im : Mat) (acc : Option Transform),
      (∀ t, acc = some t → t.isToTensor = true) →
      ((sweepLoop rest acc im).bind fun s =>
          match s.1 with
          | some t => t.create s.2
          | none => Transform.toTensor.create s.2) =
      (sweepSkipTensor rest im).bind ToTensor.create := by
  induction rest with
  | nil =>
    intro im acc hacc
    cases acc with
    | none => rfl
    | some t =>
      obtain rfl := Transform.isToTensor_true (hacc t rfl)
      rfl
  | cons t ts ih =>
    intro im acc hacc
    by_cases ht : t.isToTensor = true
    · rw [show sweepLoop (t :: ts) acc im = sweepLoop ts (some t) im from by
        simp [sweepLoop, ht]]
      rw [show sweepSkipTensor (t :: ts) im = sweepSkipTensor ts im from by
        simp [sweepSkipTensor, ht]]
      exact ih im (some t) (fun u hu => by cases hu; exact ht)
    · rw [show sweepLoop (t :: ts) acc im =
          (t.transformInPlace im).bind fun im2 => sweepLoop ts acc im2 from by
        simp [sweepLoop, ht]]
      rw [show sweepSkipTensor (t :: ts) im =
          (t.transformInPlace im).bind (sweepSkipTensor ts) from by
        simp [sweepSkipTensor, ht]]
      cases htp : t.transformInPlace im with
      | none => rfl
      | some im2 => exact ih im2 acc hacc

/-- C1: on a non-empty chain whose first stage is not tensor-producing,
`make_tensor` equals the specification's description: the first transform
produces the working image, every later non-tensor-producing transform is
applied in place in order, tensor-producing stages are never applied
during the sweep, and exactly one materialization — by a `ToTensor`,
whether the remembered stage or a default-constructed one — is performed
on the final image state.  (`ToTensor` holds no state, so the remembered
stage materializes identically to the first one encountered.) -/
theorem make_tensor_deferred (t0 : Transform) (rest : List Transform)
    (img : Mat) (h : t0.isToTensor = false) :
    make_tensor (t0 :: rest) img = make_tensor_spec t0 rest img := by
  simp only [make_tensor, make_tensor_spec, h, Bool.false_eq_true, if_false]
  cases ht : t0.transform img with
  | none => rfl
  | some im0 => exact sweepLoop_create_eq rest im0 none (fun u hu => by cases hu)

/-- Witness for C1: a chain with two tensor-producing stages and an
interleaved crop behind a leading resize. -/
theorem make_tensor_deferred_witness :
    make_tensor (Transform.resize 2 2 INTER_LINEAR :: c1_chain_tail) img4x4 =
      make_tensor_spec (Transform.resize 2 2 INTER_LINEAR) c1_chain_tail img4x4 :=
  make_tensor_deferred (Transform.resize 2 2 INTER_LINEAR) c1_chain_tail img4x4 rfl

end Flame
